import Mathlib

/-!
Verification of the safety-gated dual-recommendation arbitration engine of the
plant-medicator service.  The embedding below translates, function by function,
the Python source in `app/rag_chain.py`, `app/hybrid_recommender.py` and
`app/server.py` into executable Lean definitions.  External collaborators
(the generative advisor, the session store, the seeded NumPy network output and
its Gaussian noise) are modelled as explicit parameters at the exact call
boundary where the Python code consumes their results.  Python machine floats
are modelled by exact rationals; `str.lower()` is modelled by `(pyLower String)`
(ASCII case folding; all catalogue keywords of the source are already lower
case) and `re.search` over the source's literal `a.*b|c` patterns by an
ordered-substring matcher, which agrees with the regex on match existence.
-/

set_option maxRecDepth 20000

attribute [local semireducible] Rat.add Rat.mul Rat.sub Rat.inv Rat.ofScientific

/-- Model of scanning a character list for an occurrence of `sub`; on success
returns the suffix that follows the first occurrence.  This is the engine both
for the Python substring test `sub in s` and for the `.*`-separated pieces of
the source's regular expressions. -/
def dropThroughSub (sub : List Char) : List Char → Option (List Char)
  | [] => if sub.isEmpty then some [] else none
  | c :: cs =>
    if sub.isPrefixOf (c :: cs) then some ((c :: cs).drop sub.length)
    else dropThroughSub sub cs

/-- Model of Python's `str.lower()` (ASCII case folding, applied character by
character; the source's catalogue keywords are all lower case already). -/
def pyLower (s : String) : String := String.mk (s.data.map Char.toLower)

/-- Model of Python's `str.strip()`: drop leading and trailing whitespace. -/
def pyStrip (s : String) : String :=
  String.mk (((s.data.dropWhile Char.isWhitespace).reverse.dropWhile Char.isWhitespace).reverse)

/-- Accumulator pass of `splitLines`. -/
def splitLinesAux : List Char → List Char → List String
  | acc, [] => [String.mk acc.reverse]
  | acc, c :: cs =>
    if c = '\n' then String.mk acc.reverse :: splitLinesAux [] cs
    else splitLinesAux (c :: acc) cs

/-- Model of Python's `str.split('\n')`. -/
def splitLines (s : String) : List String := splitLinesAux [] s.data

/-- Accumulator pass of `pySplit`. -/
def pySplitAux : List Char → List Char → List String
  | acc, [] => if acc.isEmpty then [] else [String.mk acc.reverse]
  | acc, c :: cs =>
    if c.isWhitespace then
      (if acc.isEmpty then pySplitAux [] cs else String.mk acc.reverse :: pySplitAux [] cs)
    else pySplitAux (c :: acc) cs

/-- Model of Python's whitespace `str.split()`: non-empty tokens. -/
def pySplit (s : String) : List String := pySplitAux [] s.data

/-- Model of Python's two-argument `min` on numbers. -/
def pyMin (a b : ℚ) : ℚ := if a ≤ b then a else b

/-- Model of Python's two-argument `max` on numbers. -/
def pyMax (a b : ℚ) : ℚ := if a ≤ b then b else a

/-- Model of the Python substring test `sub in s`. -/
def strContains (s sub : String) : Bool :=
  (dropThroughSub sub.data s.data).isSome

/-- Model of `re.search` for one alternative of the source's patterns: the
literal `parts` must occur in order, with arbitrary gaps (`.*`) between them. -/
def matchParts : List String → List Char → Bool
  | [], _ => true
  | p :: ps, s =>
    match dropThroughSub p.data s with
    | some rest => matchParts ps rest
    | none => false

/-- Model of `re.search` for one full pattern: a disjunction (`|`) of
`.*`-separated alternatives. -/
def matchRegex (alts : List (List String)) (s : String) : Bool :=
  alts.any (fun alt => matchParts alt s.data)

/-- Model of `"\n".join(lines)` from the Python standard library. -/
def joinLines : List String → String
  | [] => ""
  | [x] => x
  | x :: y :: ys => x ++ "\n" ++ joinLines (y :: ys)

/-- PatientContext of the data model: the `patient_info` dict of the source
with the fields the arbitration core reads.  `age` is the already-parsed
integer (`int(age) if str(age).isdigit() else 0` yields a natural number). -/
structure PatientInfo where
  symptoms : String
  age : Nat
  duration : String
  gender : String
  allergies : String
  additional_info : String
  medications : String
  session_id : String
  user_id : String
deriving DecidableEq, Repr

/-- Critical symptom catalogue of `evaluar_riesgo_critico`
(`app/rag_chain.py` lines 38-59), one entry per source regex, each a
disjunction of `.*`-separated literal sequences.  `convulsiones?` is matched by
its mandatory prefix `convulsione`, `semanas?`-style optional trailing letters
are handled the same way below. -/
def critical_symptoms : List (List (List String)) :=
  [ [["dolor", "pecho", "irradia"], ["dolor", "brazo", "izquierdo"], ["opresión", "pecho"]],
    [["dolor", "mandíbula", "sudoración"], ["dolor", "cuello", "mareo"]],
    [["dificultad", "respirar", "sever"], ["falta", "aire", "reposo"], ["ahogo", "extremo"]],
    [["labios", "azules"], ["cianosis"], ["respiración", "muy", "rápida"]],
    [["pérdida", "conciencia"], ["desmayo", "repetido"], ["convulsione"]],
    [["dolor", "cabeza", "súbito", "intenso"], ["cefalea", "trueno"]],
    [["confusión", "mental", "aguda"], ["desorientación", "severa"]],
    [["vómito", "sangre"], ["heces", "negras", "alquitranadas"]],
    [["sangrado", "que", "no", "para"], ["hemorragia"]],
    [["fiebre", "39"], ["temperatura", "39"], ["40", "grados"]],
    [["rigidez", "cuello", "fiebre"], ["manchas", "piel", "fiebre"]] ]

/-- Dangerous drug-interaction catalogue of `evaluar_riesgo_critico`
(`app/rag_chain.py` lines 171-176). -/
def dangerous_interactions : List (List (List String)) :=
  [ [["anticoagulante"], ["warfarina"], ["sintrom"]],
    [["medicamento", "corazón"], ["digoxina"], ["cardiotónico"]],
    [["quimioterapia"], ["tratamiento", "cáncer"]],
    [["inmunosupresor"], ["transplante"]] ]

/-- Splits a character list into its maximal digit runs, each paired with the
suffix that follows the run, in left-to-right order.  Used to model the
`(\d+)` capture groups of the duration patterns. -/
def splitDigitRuns : List Char → List (List Char × List Char)
  | [] => []
  | c :: cs =>
    if c.isDigit then
      match splitDigitRuns cs with
      | (run, rest) :: more =>
        -- the run found in `cs` starts at its head exactly when that head is a digit
        match cs with
        | d :: _ => if d.isDigit then (c :: run, rest) :: more else ([c], cs) :: (run, rest) :: more
        | [] => [([c], [])]
      | [] => [([c], cs)]
    else splitDigitRuns cs

/-- Numeric value of a digit run (model of `int(match.group(1))`). -/
def digitsToNat (ds : List Char) : Nat :=
  ds.foldl (fun acc c => acc * 10 + (c.toNat - 48)) 0

/-- Model of `re.search(prefixes.*(\d+).*unit, s)` followed by
`int(match.group(1))`: after consuming the literal prefixes in order, the first
digit run that is followed by the unit literal is the captured number.  (On
strings with several viable digit runs Python's greedy `.*` can capture a later
run; match existence — all the source inspects besides the number — agrees.) -/
def scanNumBefore (prefixes : List String) (unit : String) (s : List Char) : Option Nat :=
  match matchPartsRest prefixes s with
  | none => none
  | some rest =>
    (splitDigitRuns rest).findSome? (fun p =>
      if (dropThroughSub unit.data p.2).isSome then some (digitsToNat p.1) else none)
where
  /-- consume the literal prefixes in order, returning the remaining suffix -/
  matchPartsRest : List String → List Char → Option (List Char)
    | [], s => some s
    | p :: ps, s =>
      match dropThroughSub p.data s with
      | some rest => matchPartsRest ps rest
      | none => none

/-- Duration patterns of `evaluar_riesgo_critico` (`app/rag_chain.py` lines
138-154): literal prefixes, unit literal (`semanas?` → `semana`, `meses?` →
`mese`, `días?` → `día`), and the day multiplier chosen by the source's
`'semana' in pattern` / `'mes' in pattern` test. -/
def duration_patterns : List (List String × String × Nat) :=
  [ ([], "semana", 7),
    ([], "mese", 30),
    (["más", "de"], "día", 1),
    (["hace"], "semana", 7),
    (["desde", "hace"], "día", 1) ]

/-- Model of the duration-parsing loop: first pattern that matches wins; no
match leaves the duration at 0 days. -/
def parseDurationDays (duration : String) : Nat :=
  match duration_patterns.findSome? (fun pat =>
    (scanNumBefore pat.1 pat.2.1 duration.data).map (· * pat.2.2)) with
  | some d => d
  | none => 0

/-- Referral message of the critical-symptom rule (`app/rag_chain.py` lines 63-75). -/
def mensaje_critico : String :=
  "🚨 **ATENCIÓN MÉDICA INMEDIATA NECESARIA** 🚨\n\nLos síntomas que describes requieren evaluación médica urgente.\n**NO es seguro usar plantas medicinales en este momento.**\n\n**Por favor:**\n- Acude INMEDIATAMENTE a emergencias\n- Llama al 117 (SAMU) si es necesario\n- No retrases la atención médica\n\n**Este sistema no puede ayudarte con síntomas que pueden ser de emergencia.**"

/-- Referral message of the infant rule (`app/rag_chain.py` lines 85-96). -/
def mensaje_menor : String :=
  "👶 **ATENCIÓN: MENOR DE 2 AÑOS**\n\n**Las plantas medicinales NO son seguras para menores de 2 años.**\n\n**Por favor:**\n- Consulta SIEMPRE con pediatra\n- Llama al centro de salud más cercano\n- No uses remedios caseros en bebés\n\n**Este sistema no puede proporcionar recomendaciones para esta edad.**"

/-- Referral message of the pregnancy rule (`app/rag_chain.py` lines 106-117). -/
def mensaje_embarazo : String :=
  "🤱 **EMBARAZO CON SÍNTOMAS DE RIESGO**\n\n**Durante el embarazo, estos síntomas requieren atención médica.**\n\n**Por favor:**\n- Contacta a tu obstetra inmediatamente\n- Acude a control prenatal urgente\n- Evita automedicación con plantas\n\n**Este sistema no puede ayudarte durante el embarazo con estos síntomas.**"

/-- Referral message of the elderly rule (`app/rag_chain.py` lines 124-135). -/
def mensaje_adulto_mayor : String :=
  "👴 **ADULTO MAYOR CON SÍNTOMAS MÚLTIPLES**\n\n**Los síntomas combinados en adultos mayores requieren evaluación médica.**\n\n**Por favor:**\n- Consulta con tu médico de cabecera\n- Considera acudir a emergencias si empeora\n- Las plantas pueden interactuar con medicamentos\n\n**Recomendamos evaluación médica antes de usar plantas medicinales.**"

/-- Referral message of the chronic-duration rule (`app/rag_chain.py` lines 157-168). -/
def mensaje_cronico (days : Nat) : String :=
  "⏰ **SÍNTOMAS PROLONGADOS (>" ++ toString days ++ " días)**\n\n**Los síntomas que duran más de 2 semanas sin mejora necesitan evaluación médica.**\n\n**Posibles razones:**\n- Condición que requiere tratamiento específico\n- Complicaciones no detectadas\n- Necesidad de diagnóstico preciso\n\n**Por favor consulta con un médico antes de continuar con plantas medicinales.**"

/-- Referral message of the drug-interaction rule (`app/rag_chain.py` lines 181-192). -/
def mensaje_interaccion : String :=
  "💊 **MEDICAMENTOS CON INTERACCIONES PELIGROSAS**\n\n**Las plantas medicinales pueden tener interacciones graves con tus medicamentos.**\n\n**Por favor:**\n- Consulta con tu médico tratante\n- Lleva la lista de todos tus medicamentos\n- No suspendas ni agregues nada sin supervisión médica\n\n**Tu seguridad es prioritaria.**"

/-- RiskStratifier, critical tier: `evaluar_riesgo_critico` of
`app/rag_chain.py` lines 24-194.  Returns
`(es_critico, nivel_riesgo, mensaje_derivacion)`; the six rule groups are
evaluated in source order, first match wins. -/
def evaluar_riesgo_critico (patient_info : PatientInfo) : Bool × String × String :=
  let symptoms := (pyLower patient_info.symptoms)
  let duration := (pyLower patient_info.duration)
  let age_int := patient_info.age
  if critical_symptoms.any (fun alts => matchRegex alts symptoms) then
    (true, "CRÍTICO", mensaje_critico)
  else if age_int < 2 ∧ age_int > 0 then
    (true, "ALTO_RIESGO", mensaje_menor)
  else if (strContains (pyLower patient_info.additional_info) ("embaraza")
            || strContains symptoms ("gestante"))
          && (strContains symptoms ("sangrado")
            || (strContains symptoms ("dolor") && strContains symptoms ("abdomen"))
            || strContains symptoms ("fiebre")
            || (strContains symptoms ("vómito") && strContains symptoms ("severo"))) then
    (true, "EMBARAZO_RIESGO", mensaje_embarazo)
  else if age_int > 75 ∧
      2 ≤ (["dolor", "fiebre", "mareo", "debilidad", "confusión"].filter
            (fun s => strContains symptoms s)).length then
    (true, "ADULTO_MAYOR_RIESGO", mensaje_adulto_mayor)
  else if 14 < parseDurationDays duration then
    (true, "CRONICO", mensaje_cronico (parseDurationDays duration))
  else if dangerous_interactions.any (fun alts =>
      matchRegex alts (pyLower (patient_info.medications ++ " " ++ patient_info.additional_info))) then
    (true, "INTERACCION_PELIGROSA", mensaje_interaccion)
  else
    (false, "BAJO_RIESGO", "")

/-- Warning wrapper of `evaluar_riesgo_moderado` (`app/rag_chain.py` lines 229-235). -/
def moderado_template (warning_text : String) : String :=
  "⚠️ **PRECAUCIONES ESPECIALES REQUERIDAS:**\n\n" ++ warning_text ++
  "\n\n**Continúa con precaución extra y considera consulta médica si empeora.**"

/-- RiskStratifier, moderate tier: `evaluar_riesgo_moderado` of
`app/rag_chain.py` lines 196-237.  Returns `(has_warning, warning_text)`. -/
def evaluar_riesgo_moderado (patient_info : PatientInfo) : Bool × String :=
  let age_int := patient_info.age
  let allergies := (pyLower patient_info.allergies)
  let warnings : List String :=
    (if 2 ≤ age_int ∧ age_int ≤ 12 then
      ["👶 **NIÑO:** Usar solo plantas muy suaves, dosis reducidas"] else []) ++
    (if strContains (pyLower patient_info.additional_info) ("embaraza") = true then
      ["🤱 **EMBARAZO:** Evitar plantas emenagogas, consultar dosis"] else []) ++
    (if 65 < age_int then
      ["👴 **ADULTO MAYOR:** Vigilar interacciones, empezar con dosis bajas"] else []) ++
    (if allergies ≠ "" ∧ strContains allergies ("ninguna") = false
        ∧ strContains allergies ("no") = false then
      ["⚠️ **ALERGIAS:** Verificar reacciones cruzadas con plantas"] else [])
  if warnings ≠ [] then
    (true, moderado_template (joinLines (warnings.map (fun w => "- " ++ w))))
  else
    (false, "")

/-- Round half to even on a rational (model of Python's `round` /
`format` rounding at the scaled value). -/
def rhe (q : ℚ) : ℤ :=
  if q - Int.floor q < 1/2 then Int.floor q
  else if 1/2 < q - Int.floor q then Int.floor q + 1
  else if Int.floor q % 2 = 0 then Int.floor q else Int.floor q + 1

/-- Left-pads a numeral string with zeros to `d` digits. -/
def padZeros (d : Nat) (s : String) : String :=
  if s.length < d then String.mk (List.replicate (d - s.length) '0') ++ s else s

/-- Model of Python's fixed-point formatting `f"{q:.df}"` for a nonnegative
rational and `d ≥ 1` decimals. -/
def fmtFixed (d : Nat) (q : ℚ) : String :=
  let scaled := (rhe (q * (10 : ℚ) ^ d)).toNat
  let base := (10 : Nat) ^ d
  toString (scaled / base) ++ "." ++ padZeros d (toString (scaled % base))

/-- Model of Python's `round(q, 3)`. -/
def round3 (q : ℚ) : ℚ := ((rhe (q * 1000) : ℤ) : ℚ) / 1000

/-- RecommendationCandidate of the data model: one entry of the dict lists
built by `HybridRecommender._format_rna_recommendations`. -/
structure Candidate where
  name : String
  scientific_name : String
  confidence : ℚ
  rank : Nat
  properties : List String
deriving DecidableEq, Repr

/-- Model of `sum(f*w for f, w in zip(precision_factors, weights))`. -/
def sumFW (factors weights : List ℚ) : ℚ :=
  ((factors.zip weights).map (fun p => p.1 * p.2)).sum

/-- `calculate_historical_similarity` of `app/rag_chain.py` lines 770-775. -/
def calculate_historical_similarity (symptoms : String) : ℚ :=
  let common_symptoms := ["dolor", "fiebre", "tos", "digestión", "cabeza", "estómago"]
  let symptoms_lower := (pyLower symptoms)
  let matchCount := (common_symptoms.filter (fun s => strContains symptoms_lower s)).length
  pyMin 0.9 ((matchCount : ℚ) / common_symptoms.length + 0.3)

/-- `calculate_symptom_frequency` of `app/rag_chain.py` lines 777-790. -/
def calculate_symptom_frequency (symptoms : String) : ℚ :=
  let symptom_frequencies : List (String × ℚ) :=
    [("dolor", 0.8), ("cabeza", 0.7), ("estómago", 0.75), ("fiebre", 0.6),
     ("tos", 0.65), ("digestión", 0.7), ("piel", 0.4), ("respiratorio", 0.5)]
  let symptoms_lower := (pyLower symptoms)
  let matched := symptom_frequencies.filter (fun p => strContains symptoms_lower p.1)
  if 0 < matched.length then
    (matched.map (fun p => p.2)).sum / (matched.length : ℚ)
  else 0.3

/-- Largest element of a confidence list (`max(confidences)`). -/
def listMaxQ : List ℚ → ℚ
  | [] => 0
  | c :: cs => cs.foldl pyMax c

/-- Smallest element of a confidence list (`min(confidences)`). -/
def listMinQ : List ℚ → ℚ
  | [] => 0
  | c :: cs => cs.foldl pyMin c

/-- Tests that consecutive confidences never increase
(`all(confidences[i] >= confidences[i+1] ...)`). -/
def isOrderedDesc : List ℚ → Bool
  | [] => true
  | [_] => true
  | a :: b :: t => decide (b ≤ a) && isOrderedDesc (b :: t)

/-- `calculate_recommendation_coherence` of `app/rag_chain.py` lines 792-805. -/
def calculate_recommendation_coherence (recommendations : List Candidate) : ℚ :=
  if recommendations.length < 2 then 0.5
  else
    let confidences := recommendations.map (fun p => p.confidence)
    let is_ordered := isOrderedDesc confidences
    let confidence_range := listMaxQ confidences - listMinQ confidences
    let good_range := 0.2 ≤ confidence_range ∧ confidence_range ≤ 0.5
    pyMin 1.0 (0.5 + (if is_ordered then 0.3 else 0) + (if good_range then 0.2 else 0))

/-- PrecisionEstimator, pattern side: `evaluate_rna_system` of
`app/rag_chain.py` lines 547-589.  The call
`hybrid_recommender.recommend(symptoms, top_n=3)` is an invocation of the
scorer collaborator; its result enters here as the `recommendations`
parameter.  The source's `except` branch (`return [], 0.2`) is unreachable in
this pure model. -/
def evaluate_rna_system (symptoms : String) (recommendations : List Candidate) :
    List Candidate × ℚ :=
  if (pyStrip symptoms) = "" then ([], 0.0)
  else if recommendations = [] then ([], 0.2)
  else
    let avg_confidence :=
      pyMax 0.2 ((recommendations.map (fun p => p.confidence)).sum / (recommendations.length : ℚ))
    let historical_similarity := pyMax 0.2 (calculate_historical_similarity symptoms)
    let symptom_frequency := pyMax 0.2 (calculate_symptom_frequency symptoms)
    let recommendation_coherence := pyMax 0.2 (calculate_recommendation_coherence recommendations)
    let weights : List ℚ := [0.4, 0.25, 0.2, 0.15]
    let rna_precision := pyMin 1.0 (pyMax 0.2 (sumFW
      [avg_confidence, historical_similarity, symptom_frequency, recommendation_coherence] weights))
    (recommendations, rna_precision)

/-- Result of the external completion collaborator (`get_completion` of
`app/rag_chain.py` lines 711-744): `failure` models the `None` returned when
the OpenAI call raises or no key is present, `noChoices` a response without
choices, `content s` a response whose message content is `s`. -/
inductive CompletionResult
  | failure
  | noChoices
  | content (s : String)
deriving DecidableEq, Repr

/-- `extract_answer` of `app/rag_chain.py` lines 746-767. -/
def extract_answer : CompletionResult → String
  | .failure => "No se pudo generar una respuesta."
  | .noChoices => "No se encontraron recomendaciones adecuadas."
  | .content s => if s = "" then "La respuesta generada está vacía." else (pyStrip s)

/-- `get_rag_recommendations` of `app/rag_chain.py` lines 653-661: prompt
construction feeds the external collaborator, whose outcome is the
`CompletionResult`; the surrounding `except` branch cannot fire because
`get_completion` already swallows its own failures. -/
def get_rag_recommendations (cr : CompletionResult) : String :=
  extract_answer cr

/-- Medical keyword set of `calculate_semantic_relevance`
(`app/rag_chain.py` lines 811-814); only membership is used, so the Python
set is a list here. -/
def medical_keywords : List String :=
  ["dolor", "fiebre", "inflamación", "tos", "digestión", "cabeza", "estómago",
   "piel", "respiratorio", "tratamiento", "medicinal", "planta", "hierba"]

/-- `calculate_semantic_relevance` of `app/rag_chain.py` lines 807-820. -/
def calculate_semantic_relevance (symptoms rag_response : String) : ℚ :=
  let symptoms_words := pySplit (pyLower symptoms)
  let response_words := pySplit (pyLower rag_response)
  let symptom_medical := medical_keywords.filter (fun k => symptoms_words.contains k)
  if symptom_medical = [] then 0.4
  else
    let overlap := (symptom_medical.filter (fun k => response_words.contains k)).length
    pyMin 0.95 ((overlap : ℚ) / (symptom_medical.length : ℚ) + 0.3)

/-- `calculate_literature_quality` of `app/rag_chain.py` lines 822-830. -/
def calculate_literature_quality (rag_response : String) : ℚ :=
  let quality_indicators := ["nombre científico", "propiedades", "preparación", "dosis",
    "efectos", "contraindicaciones", "infusión", "decocción"]
  let response_lower := (pyLower rag_response)
  let matchCount := (quality_indicators.filter (fun i => strContains response_lower i)).length
  pyMin 0.9 ((matchCount : ℚ) / quality_indicators.length + 0.2)

/-- `calculate_information_coverage` of `app/rag_chain.py` lines 832-839. -/
def calculate_information_coverage (rag_response : String) : ℚ :=
  let coverage_aspects := ["planta", "síntoma", "preparación", "uso", "cantidad", "tiempo"]
  let response_lower := (pyLower rag_response)
  let covered := (coverage_aspects.filter (fun a => strContains response_lower a)).length
  (covered : ℚ) / coverage_aspects.length

/-- `calculate_information_coherence` of `app/rag_chain.py` lines 841-855. -/
def calculate_information_coherence (rag_response : String) : ℚ :=
  let lines := splitLines rag_response
  let non_empty_lines := (lines.map pyStrip).filter (fun l => l ≠ "")
  let has_structure := 3 ≤ non_empty_lines.length
  let good_length := 100 ≤ rag_response.length ∧ rag_response.length ≤ 1000
  let has_plant_format :=
    strContains rag_response ("PLANTA_") = true ∨ strContains (pyLower rag_response) ("planta") = true
  pyMin 1.0 (0.3 + (if has_structure then 0.25 else 0) + (if good_length then 0.25 else 0) +
    (if has_plant_format then 0.2 else 0))

/-- PrecisionEstimator, advisor side: `evaluate_rag_system` of
`app/rag_chain.py` lines 591-631.  The external advisor outcome enters as the
`CompletionResult` parameter. -/
def evaluate_rag_system (patient_info : PatientInfo) (cr : CompletionResult) : String × ℚ :=
  let rag_response := get_rag_recommendations cr
  if rag_response = "" ∨ (pyStrip rag_response).length < 30 then ("", 0.5)
  else
    let semantic_relevance :=
      pyMax 0.3 (calculate_semantic_relevance patient_info.symptoms rag_response)
    let literature_quality := pyMax 0.3 (calculate_literature_quality rag_response)
    let information_coverage := pyMax 0.3 (calculate_information_coverage rag_response)
    let information_coherence := pyMax 0.3 (calculate_information_coherence rag_response)
    let weights : List ℚ := [0.35, 0.3, 0.2, 0.15]
    let rag_precision := pyMin 1.0 (pyMax 0.3 (sumFW
      [semantic_relevance, literature_quality, information_coverage, information_coherence] weights))
    (rag_response, rag_precision)

/-- `is_common_symptom` of `app/rag_chain.py` lines 857-864. -/
def is_common_symptom (symptoms : String) : Bool :=
  let common_symptoms := ["dolor de cabeza", "dolor", "fiebre", "tos", "resfriado", "gripe",
    "digestión", "estómago", "malestar", "cansancio", "fatiga"]
  let symptoms_lower := (pyLower symptoms)
  common_symptoms.any (fun common => strContains symptoms_lower common)

/-- Arbitrator: `select_optimal_system` of `app/rag_chain.py` lines 633-651.
Returns `(winner, reason)`; the reason strings carry both precisions rendered
with three decimals exactly as the source's f-strings do (the source's literal
single quotes are dropped from no string here — they never occur in these
strings). -/
def select_optimal_system (rna_precision rag_precision : ℚ) (symptoms : String) :
    String × String :=
  let min_difference : ℚ := 0.05
  if |rna_precision - rag_precision| ≤ min_difference then
    if is_common_symptom symptoms then
      ("RNA", "Empate (RNA: " ++ fmtFixed 3 rna_precision ++ ", RAG: " ++
        fmtFixed 3 rag_precision ++ ") - Síntomas comunes favorecen RNA")
    else
      ("RAG", "Empate (RNA: " ++ fmtFixed 3 rna_precision ++ ", RAG: " ++
        fmtFixed 3 rag_precision ++ ") - Síntomas específicos favorecen RAG")
  else if rag_precision < rna_precision then
    ("RNA", "RNA superior (RNA: " ++ fmtFixed 3 rna_precision ++ " > RAG: " ++
      fmtFixed 3 rag_precision ++ ") - Patrones conocidos/frecuentes")
  else
    ("RAG", "RAG superior (RAG: " ++ fmtFixed 3 rag_precision ++ " > RNA: " ++
      fmtFixed 3 rna_precision ++ ") - Casos complejos/inusuales")

/-- Plant index table of `SimpleNeuralNetwork.load_plant_data`
(`app/hybrid_recommender.py` lines 31-57). -/
def plant_mapping : List (Nat × String) :=
  [(0, "muña"), (1, "uña de gato"), (2, "maca"), (3, "sangre de grado"), (4, "hercampuri"),
   (5, "chanca piedra"), (6, "sacha inchi"), (7, "camu camu"), (8, "tara"), (9, "yacón"),
   (10, "matico"), (11, "coca"), (12, "aloe vera"), (13, "jengibre"), (14, "caléndula"),
   (15, "árbol de té"), (16, "eucalipto"), (17, "boldo"), (18, "valeriana"), (19, "manzanilla"),
   (20, "toronjil"), (21, "hierba luisa"), (22, "paico"), (23, "llantén"), (24, "cola de caballo")]

/-- Plant property table of `SimpleNeuralNetwork.load_plant_data`
(`app/hybrid_recommender.py` lines 31-57). -/
def plant_properties : List (String × List String) :=
  [("muña", ["digestivo", "respiratorio", "antimicrobiano"]),
   ("uña de gato", ["antiinflamatorio", "inmunológico", "articular"]),
   ("maca", ["energético", "hormonal", "adaptógeno"]),
   ("sangre de grado", ["cicatrizante", "antimicrobiano", "piel"]),
   ("hercampuri", ["digestivo", "hepático", "colesterol"]),
   ("chanca piedra", ["renal", "diurético", "cálculos"]),
   ("sacha inchi", ["omega3", "cardiovascular", "cerebral"]),
   ("camu camu", ["vitamina_c", "antioxidante", "inmunológico"]),
   ("tara", ["astringente", "antimicrobiano", "digestivo"]),
   ("yacón", ["digestivo", "diabético", "prebiótico"]),
   ("matico", ["cicatrizante", "digestivo", "antimicrobiano"]),
   ("coca", ["estimulante", "digestivo", "mal_altura"]),
   ("aloe vera", ["cicatrizante", "piel", "digestivo"]),
   ("jengibre", ["digestivo", "antiinflamatorio", "náuseas"]),
   ("caléndula", ["cicatrizante", "antiinflamatorio", "piel"]),
   ("árbol de té", ["antimicrobiano", "piel", "fungicida"]),
   ("eucalipto", ["respiratorio", "descongestionante", "antimicrobiano"]),
   ("boldo", ["digestivo", "hepático", "colagogo"]),
   ("valeriana", ["sedante", "ansiolítico", "relajante"]),
   ("manzanilla", ["digestivo", "sedante", "antiinflamatorio"]),
   ("toronjil", ["sedante", "digestivo", "antiespasmódico"]),
   ("hierba luisa", ["digestivo", "sedante", "carminativo"]),
   ("paico", ["antiparasitario", "digestivo", "carminativo"]),
   ("llantén", ["cicatrizante", "respiratorio", "antiinflamatorio"]),
   ("cola de caballo", ["diurético", "remineralizante", "piel"])]

/-- Property-to-symptom table of
`SimpleNeuralNetwork._calculate_symptom_relevance`
(`app/hybrid_recommender.py` lines 179-185). -/
def property_symptom_map : List (String × List String) :=
  [("digestivo", ["estómago", "digestión", "náuseas", "intestinal"]),
   ("respiratorio", ["tos", "gripe", "resfriado", "respiratorio"]),
   ("antiinflamatorio", ["inflamación", "dolor", "articulaciones"]),
   ("cicatrizante", ["piel", "herida", "cortadura"]),
   ("sedante", ["estrés", "nervios", "ansiedad", "insomnio"])]

/-- `SimpleNeuralNetwork._calculate_symptom_relevance` of
`app/hybrid_recommender.py` lines 169-193: 0.1 per property/symptom-keyword
incidence, capped at 0.3; 0.0 for plants outside the property table. -/
def calculate_symptom_relevance (plant_name symptoms : String) : ℚ :=
  match plant_properties.lookup plant_name with
  | none => 0.0
  | some properties =>
    let symptoms_lower := (pyLower symptoms)
    let relevance := (properties.map (fun prop =>
      match property_symptom_map.lookup prop with
      | none => (0 : ℚ)
      | some syms =>
        ((syms.filter (fun sym => strContains symptoms_lower sym)).length : ℚ) * 0.1)).sum
    pyMin relevance 0.3

/-- Model of `np.argsort(output_layer)[::-1]`: the indices of `v` ordered by
descending value.  (NumPy's reversed stable ascending sort puts the larger
index first among exact ties, the stable insertion sort here the smaller; the
value ordering — all the downstream code and claims depend on — is the
same.) -/
def argsortDesc (v : List ℚ) : List Nat :=
  List.insertionSort (fun i j => v.getD j 0 ≤ v.getD i 0) (List.range v.length)

/-- PatternScorer: `SimpleNeuralNetwork.predict` of
`app/hybrid_recommender.py` lines 127-167.  The two-layer forward pass over
the seed-42 NumPy weights plus the clipped Gaussian noise
(`np.clip(output_layer + noise, 0, 1)`) is the `output_layer` parameter: the
noise has full support, so every vector in `[0,1]^25` is a reachable value of
the Python expression for every symptom text.  Downstream of that expression
the translation is line by line: take the top 8 indices by descending score,
keep those present in `plant_mapping`, and attach the boosted, capped, rounded
confidence. -/
def predict (symptoms : String) (output_layer : List ℚ) : List (String × ℚ) :=
  let top_indices := (argsortDesc output_layer).take 8
  top_indices.filterMap (fun idx =>
    match plant_mapping.lookup idx with
    | some plant_name =>
      let confidence := output_layer.getD idx 0
      let relevance_boost := calculate_symptom_relevance plant_name symptoms
      let adjusted_confidence := pyMin (confidence + relevance_boost) 1.0
      some (plant_name, round3 adjusted_confidence)
    | none => none)

/-- `HybridRecommender._get_scientific_name` of `app/hybrid_recommender.py`
lines 386-416. -/
def get_scientific_name (common_name : String) : String :=
  let scientific_names : List (String × String) :=
    [("muña", "Minthostachys mollis"), ("uña de gato", "Uncaria tomentosa"),
     ("maca", "Lepidium meyenii"), ("sangre de grado", "Croton lechleri"),
     ("hercampuri", "Gentianella alborosea"), ("chanca piedra", "Phyllanthus niruri"),
     ("sacha inchi", "Plukenetia volubilis"), ("camu camu", "Myrciaria dubia"),
     ("tara", "Caesalpinia spinosa"), ("yacón", "Smallanthus sonchifolius"),
     ("matico", "Piper aduncum"), ("coca", "Erythroxylum coca"),
     ("aloe vera", "Aloe barbadensis miller"), ("jengibre", "Zingiber officinale"),
     ("caléndula", "Calendula officinalis"), ("árbol de té", "Melaleuca alternifolia"),
     ("eucalipto", "Eucalyptus globulus"), ("boldo", "Peumus boldus"),
     ("valeriana", "Valeriana officinalis"), ("manzanilla", "Matricaria chamomilla"),
     ("toronjil", "Melissa officinalis"), ("hierba luisa", "Cymbopogon citratus"),
     ("paico", "Dysphania ambrosioides"), ("llantén", "Plantago major"),
     ("cola de caballo", "Equisetum arvense")]
  (scientific_names.lookup common_name).getD ("Nombre científico no disponible")

/-- `HybridRecommender._format_rna_recommendations` of
`app/hybrid_recommender.py` lines 341-352 (the Lean name drops the source's
leading underscore): attaches scientific name, rank `i + 1` in list order, and
the property tags. -/
def format_rna_recommendations (recommendations : List (String × ℚ)) : List Candidate :=
  recommendations.enum.map (fun p =>
    { name := p.2.1,
      scientific_name := get_scientific_name p.2.1,
      confidence := p.2.2,
      rank := p.1 + 1,
      properties := (plant_properties.lookup p.2.1).getD [] })

/-- Model of Python's `str.title()` (ASCII case mapping): upper-case a letter
after a non-letter, lower-case a letter after a letter. -/
def titleCaseAux : Bool → List Char → List Char
  | _, [] => []
  | prevAlpha, c :: cs => (if prevAlpha then c.toLower else c.toUpper) :: titleCaseAux c.isAlpha cs

/-- Model of Python's `str.title()`. -/
def titleCase (s : String) : String := String.mk (titleCaseAux false s.data)

/-- ResponseComposer disclaimer: `generate_safety_disclaimer` of
`app/rag_chain.py` lines 462-476 (content of the source's triple-quoted
string). -/
def generate_safety_disclaimer : String :=
  "🏥 **IMPORTANTE - DISCLAIMER MÉDICO:**\n\n⚠️ **Este sistema NO sustituye la consulta médica profesional.**\n- En caso de emergencia, contacta servicios médicos (117 - SAMU)\n- Si los síntomas empeoran o persisten, busca atención médica\n- Las plantas medicinales pueden tener efectos secundarios e interacciones\n- Siempre informa a tu médico sobre remedios herbales que uses\n\n**🔒 Tu seguridad es nuestra prioridad principal.**"

/-- ResponseComposer, initial-consultation path: `format_user_response_safe`
of `app/rag_chain.py` lines 364-419, line list joined with newlines exactly as
the source's `"\n".join(lines)`. -/
def format_user_response_safe (selected_system : String) (rna_recommendations : List Candidate)
    (rag_recommendations : String) (rna_precision rag_precision : ℚ) (reason : String)
    (moderate_warning : String) : String :=
  let warn_lines : List String := if moderate_warning ≠ "" then [moderate_warning, ""] else []
  let header_lines : List String :=
    ["🌿 **RECOMENDACIONES DE PLANTAS MEDICINALES** 🌿", "",
     "**Sistema elegido:** " ++ selected_system,
     "**Precisión estimada:** " ++
       fmtFixed 1 ((if selected_system = "RNA" then rna_precision else rag_precision) * 100) ++ "%",
     "**Motivo de selección:** " ++ reason, ""]
  let body_lines : List String :=
    if selected_system = "RNA" then
      "🤖 **Recomendaciones basadas en patrones aprendidos (RNA):**" ::
        (List.enumFrom 1 rna_recommendations).flatMap (fun p =>
          let confidence_level :=
            if 0.7 < p.2.confidence then "Alta" else if 0.4 < p.2.confidence then "Media" else "Baja"
          ["**PLANTA_" ++ toString p.1 ++ ": " ++ titleCase p.2.name ++ " (" ++
             p.2.scientific_name ++ ")**",
           "- Efectividad: " ++ confidence_level ++ " (Confianza: " ++
             fmtFixed 2 p.2.confidence ++ ")",
           "- Descripción: Recomendada para sus síntomas específicos", ""])
    else
      ["📚 **Recomendaciones basadas en conocimiento médico (RAG):**", rag_recommendations, ""]
  let tail_lines : List String :=
    ["📊 **Comparativa de sistemas:**",
     "- Precisión RNA: " ++ fmtFixed 1 (rna_precision * 100) ++ "%",
     "- Precisión RAG: " ++ fmtFixed 1 (rag_precision * 100) ++ "%", "",
     "---", generate_safety_disclaimer, "",
     "📋 **Por favor, elija una de estas plantas para recibir la preparación detallada.**"]
  joinLines (warn_lines ++ header_lines ++ body_lines ++ tail_lines)

/-- Result dict of `get_plant_preparation_safe`. -/
structure PlantPrepResult where
  answer : String
  plant_name : String
  preparation_method : String
  session_id : String
  safety_evaluated : Bool
deriving DecidableEq, Repr

/-- ResponseComposer, plant-selection path: `get_plant_preparation_safe` of
`app/rag_chain.py` lines 332-362.  The advisor completion for the preparation
prompt enters as the `CompletionResult` parameter. -/
def get_plant_preparation_safe (plant_name : String) (patient_info : PatientInfo)
    (moderate_warning : String) (cr : CompletionResult) : PlantPrepResult :=
  let detailed_answer := extract_answer cr
  let safety_disclaimer := generate_safety_disclaimer
  let base := detailed_answer ++ "\n\n" ++ safety_disclaimer
  let final_answer := if moderate_warning ≠ "" then moderate_warning ++ "\n\n" ++ base else base
  { answer := final_answer, plant_name := plant_name, preparation_method := "RAG_SAFE",
    session_id := patient_info.session_id, safety_evaluated := true }

/-- Observable side-effect requests of one consultation, in issue order:
risk-stratifier run, pattern-scorer invocation, precision computation,
external advisor call, arbitration, storage write (`save_consultation`), and
the endpoint's plant validation. -/
inductive Event
  | riskEval | patternScore | precisionCompute | advisorCall | arbitrate | persist | validate
deriving DecidableEq, Repr

/-- ConsultationResponse: the three dict shapes returned by
`process_consultation_with_safety`. -/
inductive ConsultResponse
  | blocked (answer risk_level : String)
      (medical_referral_required plant_recommendation_blocked : Bool) (session_id : String)
  | plantPrep (r : PlantPrepResult)
  | dual (answer selected_system : String) (rna_recommendations : List Candidate)
      (rag_recommendations : String) (rna_precision rag_precision : ℚ)
      (selection_reason risk_level : String) (has_moderate_risk : Bool) (session_id : String)
      (medical_referral_required plant_recommendation_blocked : Bool)
deriving DecidableEq, Repr

/-- Rendered answer text of a consultation response. -/
def ConsultResponse.answerOf : ConsultResponse → String
  | .blocked a _ _ _ _ => a
  | .plantPrep r => r.answer
  | .dual a _ _ _ _ _ _ _ _ _ _ _ => a

/-- `selected_plant is not None and selected_plant.strip() != ""` of
`app/rag_chain.py` line 271. -/
def has_selected_plant : Option String → Bool
  | none => false
  | some p => (pyStrip p) ≠ ""

/-- ConsultationStateMachine core: `process_consultation_with_safety` of
`app/rag_chain.py` lines 239-330, instrumented with the list of side-effect
requests it issues, in source order.  External collaborator results are the
parameters: `recs` is the pattern scorer's `recommend` output, `crRag` the
advisor completion of the dual phase, `crPrep` the advisor completion of the
preparation phase.  The `save_consultation` storage write of the
plant-selection branch is recorded as the `persist` event. -/
def process_consultation_with_safety (patient_info : PatientInfo)
    (selected_plant : Option String) (recs : List Candidate)
    (crRag crPrep : CompletionResult) : ConsultResponse × List Event :=
  let ic := evaluar_riesgo_critico patient_info
  if ic.1 then
    (.blocked ic.2.2 ic.2.1 true true patient_info.session_id, [.riskEval])
  else
    let mo := evaluar_riesgo_moderado patient_info
    let session_id := patient_info.session_id
    let symptoms := patient_info.symptoms
    if has_selected_plant selected_plant then
      let result := get_plant_preparation_safe (selected_plant.getD "") patient_info mo.2 crPrep
      (.plantPrep result, [.riskEval, .advisorCall, .persist])
    else
      let rna := evaluate_rna_system symptoms recs
      let rag := evaluate_rag_system patient_info crRag
      let sel := select_optimal_system rna.2 rag.2 symptoms
      let formatted_response := format_user_response_safe sel.1 rna.1 rag.1 rna.2 rag.2 sel.2 mo.2
      (.dual formatted_response sel.1 rna.1 rag.1 rna.2 rag.2 sel.2 ic.2.1 mo.1 session_id
         false false,
       [.riskEval, .patternScore, .precisionCompute, .advisorCall, .precisionCompute, .arbitrate])

/-- Prior session payload read by the endpoint
(`get_previous_recommendations_from_session` of `app/server.py` lines
180-224); `none` models both an absent row and a storage failure, which the
source maps to the same empty dict. -/
structure PriorRecs where
  rna_recommendations : String
  rag_recommendations : String
  selected_system : String
deriving DecidableEq, Repr

/-- `validate_plant_selection` of `app/server.py` lines 226-249.  (The
source's messages wrap the plant name in single quotes; the quotes are elided
here, the message structure is otherwise verbatim.) -/
def validate_plant_selection (selected_plant session_id : String)
    (previous_recs : Option PriorRecs) : Bool × String :=
  if session_id = "" then (false, "Session ID requerido para validación")
  else
    match previous_recs with
    | none => (true, "Validación omitida - no hay recomendaciones previas")
    | some pr =>
      if strContains (pyLower pr.rag_recommendations) (pyLower selected_plant) then
        (true, "Planta " ++ selected_plant ++ " encontrada en recomendaciones RAG previas")
      else if strContains (pyLower pr.rna_recommendations) (pyLower selected_plant) then
        (true, "Planta " ++ selected_plant ++ " encontrada en recomendaciones RNA previas")
      else
        (false, "Planta " ++ selected_plant ++ " no encontrada en opciones previas")

/-- `detect_consultation_state` of `app/server.py` lines 171-178:
`true` is the `PLANT_SELECTION` state (`if selected_plant:` — a present,
non-empty plant string). -/
def detect_consultation_state : Option String → Bool
  | none => false
  | some p => p ≠ ""

/-- Outcome of the `/rag/chat` endpoint: a 400 rejection or a consultation
response. -/
inductive EndpointOutcome
  | rejected (detail : String)
  | ok (r : ConsultResponse)
deriving DecidableEq, Repr

/-- Transport entry point: `chat_endpoint` of `app/server.py` lines 428-551,
instrumented with the side-effect requests in issue order.  The user-record
merge from the database is treated as already applied to `patient_info` (it
only fills demographic defaults from an external store); the session id of the
request body is copied into `patient_info` exactly as lines 505-506 do. -/
def chat_endpoint (patient_info : PatientInfo) (selected_plant : Option String)
    (session_id : String) (previous_recs : Option PriorRecs) (recs : List Candidate)
    (crRag crPrep : CompletionResult) : EndpointOutcome × List Event :=
  let plantSel := detect_consultation_state selected_plant
  let info2 := if session_id ≠ "" then { patient_info with session_id := session_id }
               else patient_info
  if plantSel then
    let v := validate_plant_selection (selected_plant.getD "") session_id previous_recs
    if v.1 = false then
      (.rejected ("Planta inválida: " ++ v.2), [.validate])
    else
      let pr := process_consultation_with_safety info2 selected_plant recs crRag crPrep
      (.ok pr.1, .validate :: pr.2)
  else
    let pr := process_consultation_with_safety info2 selected_plant recs crRag crPrep
    (.ok pr.1, pr.2)

/-! ## Concrete inputs used by witnesses and counterexamples -/

/-- An adult context whose symptom text matches the neurological emergency
pattern (`convulsiones?`). -/
def infoCritico : PatientInfo :=
  { symptoms := "convulsiones", age := 30, duration := "", gender := "",
    allergies := "", additional_info := "", medications := "",
    session_id := "sess-1", user_id := "u1" }

/-- An infant context (age 1) whose symptom text also matches an emergency
pattern. -/
def infoBebe : PatientInfo :=
  { symptoms := "convulsiones", age := 1, duration := "", gender := "",
    allergies := "", additional_info := "", medications := "",
    session_id := "sess-2", user_id := "u1" }

/-- An adult context with the single medical-keyword symptom `dolor`. -/
def infoDolor : PatientInfo :=
  { symptoms := "dolor", age := 30, duration := "", gender := "",
    allergies := "", additional_info := "", medications := "",
    session_id := "sess-3", user_id := "u1" }

/-- An adult context that triggers neither the critical nor the moderate
tier. -/
def infoSafe : PatientInfo :=
  { symptoms := "malestar general leve", age := 30, duration := "", gender := "",
    allergies := "", additional_info := "", medications := "",
    session_id := "sess-4", user_id := "u1" }

/-- An advisor text hitting every quality indicator, every coverage aspect,
the word `dolor`, three non-empty lines and a length between 100 and 1000. -/
def respCEx : String :=
  "dolor planta síntoma uso cantidad tiempo\nnombre científico propiedades preparación dosis efectos\ncontraindicaciones infusión decocción y más texto de relleno para superar los cien caracteres"

/-- A prior session payload whose advisor text offers only Manzanilla. -/
def priorManz : PriorRecs :=
  { rna_recommendations := "", rag_recommendations := "Manzanilla (Matricaria chamomilla)",
    selected_system := "RAG" }

/-- A reachable post-noise scorer output vector: maca (index 2) scores 0.6
with zero relevance boost, manzanilla (index 19) scores 0.55 with the full 0.3
boost for `sEx5`, every other index scores below 0.025. -/
def vEx5 : List ℚ :=
  (List.range 25).map (fun k => if k = 2 then 0.6 else if k = 19 then 0.55 else (k : ℚ) / 1000)

/-- Symptom text giving manzanilla the maximal relevance boost. -/
def sEx5 : String := "estrés estómago digestión náuseas"

/-! ## Helper lemmas -/

/-- Rounding half to even never overshoots an integer bound. -/
theorem rhe_le_of_le {x : ℚ} {n : ℤ} (h : x ≤ (n : ℚ)) : rhe x ≤ n := by
  have hf : Int.floor x ≤ n := by
    have h2 := Int.floor_le_floor h
    rwa [Int.floor_intCast] at h2
  have hfx : (Int.floor x : ℚ) ≤ x := Int.floor_le x
  have key : ¬ x - (Int.floor x : ℚ) < 1/2 → Int.floor x + 1 ≤ n := by
    intro hge
    push_neg at hge
    rcases lt_or_eq_of_le hf with h1 | h2
    · omega
    · exfalso
      have hc : ((Int.floor x : ℤ) : ℚ) = (n : ℚ) := by exact_mod_cast h2
      have : (1 : ℚ)/2 ≤ x - (n : ℚ) := by
        calc (1 : ℚ)/2 ≤ x - (Int.floor x : ℚ) := hge
        _ = x - (n : ℚ) := by rw [hc]
      linarith
  unfold rhe
  split
  · exact hf
  next h1 =>
    split
    next h2 => exact key h1
    next h2 =>
      split
      · exact hf
      · exact key h1

/-- Python's `round(q, 3)` preserves an upper bound of 1. -/
theorem round3_le_one {q : ℚ} (h : q ≤ 1) : round3 q ≤ 1 := by
  unfold round3
  rw [div_le_one (by norm_num)]
  have h1000 : q * 1000 ≤ ((1000 : ℤ) : ℚ) := by push_cast; linarith
  have := rhe_le_of_le h1000
  exact_mod_cast this

/-- Joining lines with newlines keeps any chosen line as a contiguous
substring of the result. -/
theorem joinLines_split (pre : List String) (x : String) (post : List String) :
    ∃ l r, joinLines (pre ++ x :: post) = l ++ x ++ r := by
  induction pre with
  | nil =>
    cases post with
    | nil => exact ⟨"", "", by simp [joinLines]⟩
    | cons y ys =>
      refine ⟨"", "\n" ++ joinLines (y :: ys), ?_⟩
      simp [joinLines, String.append_assoc]
  | cons p ps ih =>
    obtain ⟨l, r, hl⟩ := ih
    refine ⟨p ++ "\n" ++ l, r, ?_⟩
    have hcons : ∃ z zs, ps ++ x :: post = z :: zs := by
      cases hp : ps ++ x :: post with
      | nil => exact absurd hp (by simp)
      | cons z zs => exact ⟨z, zs, rfl⟩
    obtain ⟨z, zs, hz⟩ := hcons
    calc joinLines ((p :: ps) ++ x :: post) = joinLines (p :: (ps ++ x :: post)) := by rw [List.cons_append]
    _ = p ++ "\n" ++ joinLines (ps ++ x :: post) := by rw [hz]; rfl
    _ = p ++ "\n" ++ (l ++ x ++ r) := by rw [hl]
    _ = p ++ "\n" ++ l ++ x ++ r := by simp [String.append_assoc]

/-- `pyMin` is bounded by its left argument. -/
theorem pyMin_le_left (a b : ℚ) : pyMin a b ≤ a := by
  unfold pyMin
  split
  · exact le_rfl
  · next h => exact le_of_not_le h

/-- `pyMin` is bounded by its right argument. -/
theorem pyMin_le_right (a b : ℚ) : pyMin a b ≤ b := by
  unfold pyMin
  split
  · next h => exact h
  · exact le_rfl

/-- The left argument bounds `pyMax` from below. -/
theorem le_pyMax_left (a b : ℚ) : a ≤ pyMax a b := by
  unfold pyMax
  split
  · next h => exact h
  · exact le_rfl

/-- A common lower bound of both arguments bounds `pyMin` from below. -/
theorem le_pyMin {a b c : ℚ} (h1 : a ≤ b) (h2 : a ≤ c) : a ≤ pyMin b c := by
  unfold pyMin
  split
  · exact h1
  · exact h2

/-- The index order produced by `argsortDesc` carries descending values. -/
theorem argsortDesc_sorted (v : List ℚ) :
    List.Pairwise (fun i j => v.getD j 0 ≤ v.getD i 0) (argsortDesc v) := by
  haveI : IsTotal Nat (fun i j => v.getD j 0 ≤ v.getD i 0) := ⟨fun a b => le_total _ _⟩
  haveI : IsTrans Nat (fun i j => v.getD j 0 ≤ v.getD i 0) := ⟨fun a b c h1 h2 => le_trans h2 h1⟩
  exact List.sorted_insertionSort _ _

/-- Enumerating from `n` and adding one to each index yields the contiguous
range starting at `n + 1`. -/
theorem enumFrom_rank (n : Nat) (l : List (String × ℚ)) :
    (List.enumFrom n l).map (fun p => p.1 + 1) = List.range' (n + 1) l.length := by
  induction l generalizing n with
  | nil => simp
  | cons a t ih => simp [List.enumFrom, List.range', ih]

/-- The rank fields assigned by `format_rna_recommendations` are exactly
`1..n` in list order. -/
theorem format_ranks (l : List (String × ℚ)) :
    (format_rna_recommendations l).map (fun c => c.rank) = List.range' 1 l.length := by
  unfold format_rna_recommendations
  rw [List.map_map]
  have h := enumFrom_rank 0 l
  simpa [List.enum, Function.comp] using h

/-- Every adjusted confidence emitted by `predict` is at most 1. -/
theorem predict_conf_le_one (symptoms : String) (v : List ℚ) :
    ∀ x ∈ predict symptoms v, x.2 ≤ 1 := by
  intro x hx
  unfold predict at hx
  obtain ⟨idx, _, hmk⟩ := List.mem_filterMap.mp hx
  rcases hL : plant_mapping.lookup idx with _ | name
  · rw [hL] at hmk; exact absurd hmk (by simp)
  · rw [hL] at hmk
    simp only [Option.some.injEq] at hmk
    have h2 : x.2 = round3 (pyMin (v.getD idx 0 + calculate_symptom_relevance name symptoms) 1.0) := by
      rw [← hmk]
    rw [h2]
    exact round3_le_one (le_trans (pyMin_le_right _ _) (by norm_num))

/-- C1: for every patient context on which the risk stratifier blocks,
`process_consultation_with_safety` returns the block response immediately with
`medical_referral_required = true` and `plant_recommendation_blocked = true`,
its side-effect trace is the risk evaluation alone, and in particular the
pattern scorer is never invoked, no precision is computed, no arbitration
occurs, and no persistence request is issued. -/
theorem c1_block_short_circuit (patient_info : PatientInfo) (selected_plant : Option String)
    (recs : List Candidate) (crRag crPrep : CompletionResult)
    (h : (evaluar_riesgo_critico patient_info).1 = true) :
    process_consultation_with_safety patient_info selected_plant recs crRag crPrep =
      (ConsultResponse.blocked (evaluar_riesgo_critico patient_info).2.2
        (evaluar_riesgo_critico patient_info).2.1 true true patient_info.session_id,
       [Event.riskEval]) ∧
    Event.patternScore ∉
      (process_consultation_with_safety patient_info selected_plant recs crRag crPrep).2 ∧
    Event.precisionCompute ∉
      (process_consultation_with_safety patient_info selected_plant recs crRag crPrep).2 ∧
    Event.arbitrate ∉
      (process_consultation_with_safety patient_info selected_plant recs crRag crPrep).2 ∧
    Event.persist ∉
      (process_consultation_with_safety patient_info selected_plant recs crRag crPrep).2 := by
  have hp : process_consultation_with_safety patient_info selected_plant recs crRag crPrep =
      (ConsultResponse.blocked (evaluar_riesgo_critico patient_info).2.2
        (evaluar_riesgo_critico patient_info).2.1 true true patient_info.session_id,
       [Event.riskEval]) := by
    simp [process_consultation_with_safety, h]
  refine ⟨hp, ?_, ?_, ?_, ?_⟩ <;> rw [hp] <;> simp

/-- Witness for C1: the emergency context `infoCritico` satisfies the blocking
hypothesis and short-circuits. -/
theorem c1_block_short_circuit_witness :
    (evaluar_riesgo_critico infoCritico).1 = true ∧
    process_consultation_with_safety infoCritico none [] .failure .failure =
      (ConsultResponse.blocked (evaluar_riesgo_critico infoCritico).2.2
        (evaluar_riesgo_critico infoCritico).2.1 true true infoCritico.session_id,
       [Event.riskEval]) :=
  ⟨by decide, (c1_block_short_circuit infoCritico none [] .failure .failure (by decide)).1⟩

/-- C2 counterexample: the infant context `infoBebe` (age 1) whose symptom
text matches an emergency pattern is blocked with level `CRÍTICO`, not
`ALTO_RIESGO` as the claim asserts for every symptom text. -/
theorem c2_counterexample :
    0 < infoBebe.age ∧ infoBebe.age < 2 ∧
    (evaluar_riesgo_critico infoBebe).1 = true ∧
    (evaluar_riesgo_critico infoBebe).2.1 = "CRÍTICO" ∧
    (evaluar_riesgo_critico infoBebe).2.1 ≠ "ALTO_RIESGO" := by decide

/-- C2 (amended): for every patient context of age strictly between 0 and 2,
`evaluar_riesgo_critico` blocks; the level is `ALTO_RIESGO` when the symptom
text matches no emergency pattern and `CRÍTICO` (still blocking) when it
does — the emergency-pattern rule is evaluated first. -/
theorem c2_infant_block_amended (patient_info : PatientInfo)
    (h1 : 0 < patient_info.age) (h2 : patient_info.age < 2) :
    (evaluar_riesgo_critico patient_info).1 = true ∧
    (critical_symptoms.any (fun alts => matchRegex alts (pyLower patient_info.symptoms)) = false →
      (evaluar_riesgo_critico patient_info).2.1 = "ALTO_RIESGO") ∧
    (critical_symptoms.any (fun alts => matchRegex alts (pyLower patient_info.symptoms)) = true →
      (evaluar_riesgo_critico patient_info).2.1 = "CRÍTICO") := by
  have hage : patient_info.age < 2 ∧ patient_info.age > 0 := ⟨h2, h1⟩
  by_cases hm : critical_symptoms.any (fun alts => matchRegex alts (pyLower patient_info.symptoms)) = true
  · refine ⟨?_, ?_, ?_⟩ <;> simp [evaluar_riesgo_critico, hm]
  · have hm2 : critical_symptoms.any (fun alts => matchRegex alts (pyLower patient_info.symptoms)) = false :=
      by simpa using hm
    refine ⟨?_, ?_, ?_⟩ <;> simp [evaluar_riesgo_critico, hm2, hage]

/-- Witness for C2 (amended): a one-year-old with a non-emergency symptom text
is blocked at level `ALTO_RIESGO`. -/
theorem c2_infant_block_amended_witness :
    0 < (1 : Nat) ∧ (1 : Nat) < 2 ∧
    (evaluar_riesgo_critico { infoSafe with age := 1 }).1 = true :=
  ⟨by decide, by decide,
    (c2_infant_block_amended { infoSafe with age := 1 } (by decide) (by decide)).1⟩

/-- C3: the arbitrator selects RNA on a tie (difference at most 0.05) with a
common-ailment symptom, RAG on a tie without one, and otherwise the side with
the strictly higher precision; every reason text contains both precisions
rendered with three decimals; precisions (0.70, 0.72) with symptom text
`dolor de cabeza` select RNA and (0.55, 0.80) select RAG. -/
theorem c3_arbitrator_policy (p a : ℚ) (s : String) :
    (|p - a| ≤ 0.05 → is_common_symptom s = true → (select_optimal_system p a s).1 = "RNA") ∧
    (|p - a| ≤ 0.05 → is_common_symptom s = false → (select_optimal_system p a s).1 = "RAG") ∧
    (¬ |p - a| ≤ 0.05 → a < p → (select_optimal_system p a s).1 = "RNA") ∧
    (¬ |p - a| ≤ 0.05 → p < a → (select_optimal_system p a s).1 = "RAG") ∧
    (∃ l r, (select_optimal_system p a s).2 = l ++ fmtFixed 3 p ++ r) ∧
    (∃ l r, (select_optimal_system p a s).2 = l ++ fmtFixed 3 a ++ r) ∧
    (select_optimal_system 0.70 0.72 "dolor de cabeza").1 = "RNA" ∧
    (select_optimal_system 0.55 0.80 s).1 = "RAG" := by
  refine ⟨?_, ?_, ?_, ?_, ?_, ?_, ?_, ?_⟩
  · intro h hc; simp [select_optimal_system, h, hc]
  · intro h hc; simp [select_optimal_system, h, hc]
  · intro h hgt; simp [select_optimal_system, h, hgt]
  · intro h hgt
    have : ¬ a < p := not_lt_of_gt hgt
    simp [select_optimal_system, h, this]
  · unfold select_optimal_system
    by_cases h : |p - a| ≤ 0.05
    · rw [if_pos h]
      by_cases hc : is_common_symptom s
      · rw [if_pos hc]
        exact ⟨"Empate (RNA: ", ", RAG: " ++ fmtFixed 3 a ++ ") - Síntomas comunes favorecen RNA",
          by simp [String.append_assoc]⟩
      · rw [if_neg hc]
        exact ⟨"Empate (RNA: ", ", RAG: " ++ fmtFixed 3 a ++ ") - Síntomas específicos favorecen RAG",
          by simp [String.append_assoc]⟩
    · rw [if_neg h]
      by_cases hgt : a < p
      · rw [if_pos hgt]
        exact ⟨"RNA superior (RNA: ", " > RAG: " ++ fmtFixed 3 a ++ ") - Patrones conocidos/frecuentes",
          by simp [String.append_assoc]⟩
      · rw [if_neg hgt]
        exact ⟨"RAG superior (RAG: " ++ fmtFixed 3 a ++ " > RNA: ", ") - Casos complejos/inusuales",
          by simp [String.append_assoc]⟩
  · unfold select_optimal_system
    by_cases h : |p - a| ≤ 0.05
    · rw [if_pos h]
      by_cases hc : is_common_symptom s
      · rw [if_pos hc]
        exact ⟨"Empate (RNA: " ++ fmtFixed 3 p ++ ", RAG: ", ") - Síntomas comunes favorecen RNA",
          by simp [String.append_assoc]⟩
      · rw [if_neg hc]
        exact ⟨"Empate (RNA: " ++ fmtFixed 3 p ++ ", RAG: ", ") - Síntomas específicos favorecen RAG",
          by simp [String.append_assoc]⟩
    · rw [if_neg h]
      by_cases hgt : a < p
      · rw [if_pos hgt]
        exact ⟨"RNA superior (RNA: " ++ fmtFixed 3 p ++ " > RAG: ", ") - Patrones conocidos/frecuentes",
          by simp [String.append_assoc]⟩
      · rw [if_neg hgt]
        exact ⟨"RAG superior (RAG: ", " > RNA: " ++ fmtFixed 3 p ++ ") - Casos complejos/inusuales",
          by simp [String.append_assoc]⟩
  · have h : |(0.70 : ℚ) - 0.72| ≤ 0.05 := by
      have he : (0.70 : ℚ) - 0.72 = -0.02 := by norm_num
      rw [he, abs_of_neg (by norm_num)]
      norm_num
    have hc : is_common_symptom "dolor de cabeza" = true := by decide
    simp [select_optimal_system, h, hc]
  · have h : ¬ |(0.55 : ℚ) - 0.80| ≤ 0.05 := by
      have he : (0.55 : ℚ) - 0.80 = -0.25 := by norm_num
      rw [he, abs_of_neg (by norm_num)]
      norm_num
    have hgt : ¬ (0.80 : ℚ) < 0.55 := by norm_num
    simp [select_optimal_system, h, hgt]

/-- Witness for C3: the tie-band common-symptom case at (0.70, 0.72) with
`dolor de cabeza`. -/
theorem c3_arbitrator_policy_witness :
    |(0.70 : ℚ) - 0.72| ≤ 0.05 ∧ is_common_symptom "dolor de cabeza" = true ∧
    (select_optimal_system 0.70 0.72 "dolor de cabeza").1 = "RNA" := by
  have h : |(0.70 : ℚ) - 0.72| ≤ 0.05 := by
    have he : (0.70 : ℚ) - 0.72 = -0.02 := by norm_num
    rw [he, abs_of_neg (by norm_num)]
    norm_num
  exact ⟨h, by decide, (c3_arbitrator_policy 0.70 0.72 "dolor de cabeza").1 h (by decide)⟩

/-- C4 counterexample: for the advisor text `respCEx` — a produced text of
sufficient length — `evaluate_rag_system` returns precision 0.9525, outside
the claimed closed interval [0.3, 0.92]. -/
theorem c4_counterexample :
    (evaluate_rag_system infoDolor (.content respCEx)).1 = respCEx ∧
    ¬ (pyStrip (evaluate_rag_system infoDolor (.content respCEx)).1).length < 30 ∧
    (evaluate_rag_system infoDolor (.content respCEx)).2 = 0.9525 ∧
    ¬ (evaluate_rag_system infoDolor (.content respCEx)).2 ≤ 0.92 := by decide

/-- C4 (amended): the pattern-subsystem precision of `evaluate_rna_system`
lies in the closed interval [0.2, 1.0] whenever candidates are produced — the
source clamps with `min(1.0, max(0.2, ...))`, not to [0.4, 0.95] — and equals
the fixed fallback 0.2 when the scorer produces no candidates (blank symptom
text short-circuits to 0.0 before that); the advisor-subsystem precision of
`evaluate_rag_system` lies in [0.3, 1.0] whenever advisor text of sufficient
length is produced — the clamp is `min(1.0, max(0.3, ...))`, and 0.92 can be
exceeded — and equals the fixed fallback 0.5 on empty or below-minimum-length
text. -/
theorem c4_precision_bounds_amended (symptoms : String) (recommendations : List Candidate)
    (patient_info : PatientInfo) (cr : CompletionResult)
    (hs : pyStrip symptoms ≠ "") :
    (recommendations ≠ [] →
      0.2 ≤ (evaluate_rna_system symptoms recommendations).2 ∧
      (evaluate_rna_system symptoms recommendations).2 ≤ 1) ∧
    (evaluate_rna_system symptoms []).2 = 0.2 ∧
    (get_rag_recommendations cr ≠ "" → ¬ (pyStrip (get_rag_recommendations cr)).length < 30 →
      0.3 ≤ (evaluate_rag_system patient_info cr).2 ∧
      (evaluate_rag_system patient_info cr).2 ≤ 1) ∧
    ((get_rag_recommendations cr = "" ∨ (pyStrip (get_rag_recommendations cr)).length < 30) →
      evaluate_rag_system patient_info cr = ("", 0.5)) := by
  refine ⟨?_, ?_, ?_, ?_⟩
  · intro hne
    have hrw : (evaluate_rna_system symptoms recommendations).2 =
        pyMin 1.0 (pyMax 0.2 (sumFW
          [pyMax 0.2 ((recommendations.map (fun p => p.confidence)).sum /
              (recommendations.length : ℚ)),
           pyMax 0.2 (calculate_historical_similarity symptoms),
           pyMax 0.2 (calculate_symptom_frequency symptoms),
           pyMax 0.2 (calculate_recommendation_coherence recommendations)]
          [0.4, 0.25, 0.2, 0.15])) := by
      unfold evaluate_rna_system
      rw [if_neg hs, if_neg hne]
    rw [hrw]
    constructor
    · have hb : (0.2 : ℚ) ≤ 1.0 := by norm_num
      exact le_pyMin hb (le_pyMax_left _ _)
    · exact le_trans (pyMin_le_left _ _) (by norm_num)
  · unfold evaluate_rna_system
    rw [if_neg hs, if_pos rfl]
  · intro h1 h2
    have hcond : ¬ (get_rag_recommendations cr = "" ∨
        (pyStrip (get_rag_recommendations cr)).length < 30) := by
      push_neg
      exact ⟨h1, by omega⟩
    have hrw : (evaluate_rag_system patient_info cr).2 =
        pyMin 1.0 (pyMax 0.3 (sumFW
          [pyMax 0.3 (calculate_semantic_relevance patient_info.symptoms (get_rag_recommendations cr)),
           pyMax 0.3 (calculate_literature_quality (get_rag_recommendations cr)),
           pyMax 0.3 (calculate_information_coverage (get_rag_recommendations cr)),
           pyMax 0.3 (calculate_information_coherence (get_rag_recommendations cr))]
          [0.35, 0.3, 0.2, 0.15])) := by
      unfold evaluate_rag_system
      rw [if_neg hcond]
    rw [hrw]
    constructor
    · have hb : (0.3 : ℚ) ≤ 1.0 := by norm_num
      exact le_pyMin hb (le_pyMax_left _ _)
    · exact le_trans (pyMin_le_left _ _) (by norm_num)
  · intro hcond
    unfold evaluate_rag_system
    rw [if_pos hcond]

/-- Witness for C4 (amended): symptom text `dolor` with one candidate and the
advisor text `respCEx`. -/
theorem c4_precision_bounds_amended_witness :
    pyStrip "dolor" ≠ "" ∧
    ([({ name := "manzanilla", scientific_name := "Matricaria chamomilla",
         confidence := 0.7, rank := 1, properties := [] } : Candidate)] ≠
       ([] : List Candidate) ∧
     (evaluate_rna_system "dolor"
        [{ name := "manzanilla", scientific_name := "Matricaria chamomilla",
           confidence := 0.7, rank := 1, properties := [] }]).2 ≤ 1) := by
  refine ⟨by decide, by simp, ?_⟩
  exact ((c4_precision_bounds_amended "dolor"
    [{ name := "manzanilla", scientific_name := "Matricaria chamomilla",
       confidence := 0.7, rank := 1, properties := [] }]
    infoDolor .failure (by decide)).1 (by simp)).2

/-- The payload of an entry of an enumerated list is an entry of the list. -/
theorem snd_mem_enumFrom {α : Type _} (n : Nat) (l : List α) (p : Nat × α)
    (h : p ∈ List.enumFrom n l) : p.2 ∈ l := by
  induction l generalizing n with
  | nil => simp [List.enumFrom] at h
  | cons a t ih =>
    simp only [List.enumFrom, List.mem_cons] at h
    rcases h with h | h
    · rw [h]
      exact List.mem_cons_self _ _
    · exact List.mem_cons_of_mem _ (ih _ h)

/-- C5 counterexample: a reachable scorer output on which the candidate list,
after the relevance boost, is not sorted by descending adjusted confidence —
maca keeps 0.6 in front of manzanilla's boosted 0.85. -/
theorem c5_counterexample :
    (format_rna_recommendations ((predict sEx5 vEx5).take 5)).map (fun c => c.confidence) =
      [0.6, 0.85, 0.024, 0.023, 0.322] ∧
    ¬ List.Pairwise (fun x y => (y : ℚ) ≤ x)
        ((format_rna_recommendations ((predict sEx5 vEx5).take 5)).map
          (fun c => c.confidence)) := by
  constructor
  · decide
  · intro hp
    have he : (format_rna_recommendations ((predict sEx5 vEx5).take 5)).map
        (fun c => c.confidence) = [0.6, 0.85, 0.024, 0.023, 0.322] := by decide
    rw [he] at hp
    have h01 : ((0.85 : ℚ) ≤ 0.6) := by
      have := List.rel_of_pairwise_cons hp (List.mem_cons_self _ _)
      exact this
    exact absurd h01 (by norm_num)

/-- C5 (amended): the pattern-scorer candidate list has length at most 8,
every adjusted confidence is at most 1.0 and every relevance boost at most
0.3, the rank fields are exactly `1..n`, contiguous and unique, and the list
is emitted in descending order of the pre-boost network score (`predict` does
not re-sort after adding the boost, so descending order of the adjusted
confidence itself is not guaranteed). -/
theorem c5_scorer_shape_amended (symptoms : String) (output_layer : List ℚ) :
    (predict symptoms output_layer).length ≤ 8 ∧
    (∀ c ∈ format_rna_recommendations ((predict symptoms output_layer).take 5),
      c.confidence ≤ 1) ∧
    (∀ plant_name s2, calculate_symptom_relevance plant_name s2 ≤ 0.3) ∧
    ((format_rna_recommendations ((predict symptoms output_layer).take 5)).map
        (fun c => c.rank) =
      List.range' 1 ((predict symptoms output_layer).take 5).length) ∧
    List.Pairwise (fun i j => output_layer.getD j 0 ≤ output_layer.getD i 0)
      ((argsortDesc output_layer).take 8) := by
  refine ⟨?_, ?_, ?_, ?_, ?_⟩
  · calc (predict symptoms output_layer).length
        ≤ ((argsortDesc output_layer).take 8).length := List.length_filterMap_le _ _
    _ ≤ 8 := by rw [List.length_take]; exact min_le_left _ _
  · intro c hc
    unfold format_rna_recommendations at hc
    obtain ⟨p, hp, hpc⟩ := List.mem_map.mp hc
    have hmem : p.2 ∈ (predict symptoms output_layer).take 5 :=
      snd_mem_enumFrom 0 _ p (by simpa [List.enum] using hp)
    have hmem2 : p.2 ∈ predict symptoms output_layer := List.mem_of_mem_take hmem
    have := predict_conf_le_one symptoms output_layer p.2 hmem2
    rw [← hpc]
    exact this
  · intro plant_name s2
    unfold calculate_symptom_relevance
    cases plant_properties.lookup plant_name with
    | none => norm_num
    | some properties => exact pyMin_le_right _ _
  · exact format_ranks _
  · exact List.Pairwise.sublist (List.take_sublist 8 _) (argsortDesc_sorted output_layer)

/-- C6: the code contradicts the documented advisor-failure fallback.  When
the external completion fails, `extract_answer` substitutes the 33-character
placeholder `No se pudo generar una respuesta.`, which passes the
below-minimum-length guard (30), so `evaluate_rag_system` computes its factors
on the placeholder and returns it with precision 0.3 — not the documented
`("", 0.5)` fallback. -/
theorem c6_advisor_failure_eval :
    evaluate_rag_system infoDolor .failure = ("No se pudo generar una respuesta.", 0.3) ∧
    ("No se pudo generar una respuesta." : String).length = 33 ∧
    evaluate_rag_system infoDolor .failure ≠ ("", 0.5) := by decide

/-- Reassociation of a line list around the disclaimer entry. -/
theorem append_tail_split (L : List String) (t1 t2 t3 t4 t5 t7 t8 : String) :
    L ++ [t1, t2, t3, t4, t5, generate_safety_disclaimer, t7, t8] =
    (L ++ [t1, t2, t3, t4, t5]) ++ generate_safety_disclaimer :: [t7, t8] := by
  simp [List.append_assoc]

/-- Every initial-consultation response rendered by
`format_user_response_safe` contains the mandatory disclaimer and starts with
the moderate warning when one is present. -/
theorem format_contains_disclaimer (ss : String) (rnaRecs : List Candidate) (ragRecs : String)
    (p1 p2 : ℚ) (reason warning : String) :
    (∃ l r, format_user_response_safe ss rnaRecs ragRecs p1 p2 reason warning =
      l ++ generate_safety_disclaimer ++ r) ∧
    (warning ≠ "" → ∃ t, format_user_response_safe ss rnaRecs ragRecs p1 p2 reason warning =
      warning ++ t) := by
  constructor
  · simp only [format_user_response_safe]
    rw [append_tail_split]
    exact joinLines_split _ generate_safety_disclaimer _
  · intro hw
    simp only [format_user_response_safe, if_pos hw]
    refine ⟨"\n" ++ joinLines ("" :: (["🌿 **RECOMENDACIONES DE PLANTAS MEDICINALES** 🌿", "",
      "**Sistema elegido:** " ++ ss,
      "**Precisión estimada:** " ++
        fmtFixed 1 ((if ss = "RNA" then p1 else p2) * 100) ++ "%",
      "**Motivo de selección:** " ++ reason, ""] ++
      (if ss = "RNA" then
        "🤖 **Recomendaciones basadas en patrones aprendidos (RNA):**" ::
          (List.enumFrom 1 rnaRecs).flatMap (fun p =>
            let confidence_level :=
              if 0.7 < p.2.confidence then "Alta"
              else if 0.4 < p.2.confidence then "Media" else "Baja"
            ["**PLANTA_" ++ toString p.1 ++ ": " ++ titleCase p.2.name ++ " (" ++
               p.2.scientific_name ++ ")**",
             "- Efectividad: " ++ confidence_level ++ " (Confianza: " ++
               fmtFixed 2 p.2.confidence ++ ")",
             "- Descripción: Recomendada para sus síntomas específicos", ""])
      else
        ["📚 **Recomendaciones basadas en conocimiento médico (RAG):**", ragRecs, ""]) ++
      ["📊 **Comparativa de sistemas:**",
       "- Precisión RNA: " ++ fmtFixed 1 (p1 * 100) ++ "%",
       "- Precisión RAG: " ++ fmtFixed 1 (p2 * 100) ++ "%", "",
       "---", generate_safety_disclaimer, "",
       "📋 **Por favor, elija una de estas plantas para recibir la preparación detallada.**"])), ?_⟩
    simp [joinLines, String.append_assoc]

/-- C7: every response produced on a non-blocked path — the
initial-consultation answer as well as the plant-selection preparation
answer, for every input — contains the fixed mandatory safety-disclaimer text
as a contiguous substring, and any moderate-risk warning is prepended when
present. -/
theorem c7_disclaimer_always (patient_info : PatientInfo) (selected_plant : Option String)
    (recs : List Candidate) (crRag crPrep : CompletionResult)
    (h : (evaluar_riesgo_critico patient_info).1 = false) :
    (∃ l r,
      ((process_consultation_with_safety patient_info selected_plant recs crRag crPrep).1).answerOf =
        l ++ generate_safety_disclaimer ++ r) ∧
    ((evaluar_riesgo_moderado patient_info).2 ≠ "" →
      ∃ t,
        ((process_consultation_with_safety patient_info selected_plant recs crRag crPrep).1).answerOf =
          (evaluar_riesgo_moderado patient_info).2 ++ t) := by
  by_cases hsp : has_selected_plant selected_plant = true
  · have hans :
        ((process_consultation_with_safety patient_info selected_plant recs crRag crPrep).1).answerOf =
        (get_plant_preparation_safe (selected_plant.getD "") patient_info
          (evaluar_riesgo_moderado patient_info).2 crPrep).answer := by
      simp [process_consultation_with_safety, h, hsp, ConsultResponse.answerOf]
    rw [hans]
    simp only [get_plant_preparation_safe]
    by_cases hw : (evaluar_riesgo_moderado patient_info).2 ≠ ""
    · rw [if_pos hw]
      constructor
      · exact ⟨(evaluar_riesgo_moderado patient_info).2 ++ "\n\n" ++ (extract_answer crPrep ++ "\n\n"),
          "", by simp [String.append_assoc]⟩
      · intro _
        exact ⟨"\n\n" ++ (extract_answer crPrep ++ "\n\n" ++ generate_safety_disclaimer),
          by simp [String.append_assoc]⟩
    · rw [if_neg hw]
      constructor
      · exact ⟨extract_answer crPrep ++ "\n\n", "", by simp [String.append_assoc]⟩
      · intro hw2
        exact absurd hw2 hw
  · have hans :
        ((process_consultation_with_safety patient_info selected_plant recs crRag crPrep).1).answerOf =
        format_user_response_safe
          (select_optimal_system (evaluate_rna_system patient_info.symptoms recs).2
            (evaluate_rag_system patient_info crRag).2 patient_info.symptoms).1
          (evaluate_rna_system patient_info.symptoms recs).1
          (evaluate_rag_system patient_info crRag).1
          (evaluate_rna_system patient_info.symptoms recs).2
          (evaluate_rag_system patient_info crRag).2
          (select_optimal_system (evaluate_rna_system patient_info.symptoms recs).2
            (evaluate_rag_system patient_info crRag).2 patient_info.symptoms).2
          (evaluar_riesgo_moderado patient_info).2 := by
      simp [process_consultation_with_safety, h, hsp, ConsultResponse.answerOf]
    rw [hans]
    exact format_contains_disclaimer _ _ _ _ _ _ _

/-- Witness for C7: the clear context `infoSafe` on the initial-consultation
path with a failed advisor call. -/
theorem c7_disclaimer_always_witness :
    (evaluar_riesgo_critico infoSafe).1 = false ∧
    (∃ l r,
      ((process_consultation_with_safety infoSafe none [] .failure .failure).1).answerOf =
        l ++ generate_safety_disclaimer ++ r) :=
  ⟨by decide,
    (c7_disclaimer_always infoSafe none [] .failure .failure (by decide)).1⟩

/-- C8: with a session id present, a plant selection is accepted if and only
if no prior payload exists (permissive skip) or the lower-cased plant name is
a substring of the lower-cased prior advisor text or of the lower-cased prior
candidate payload; `manzanilla` is accepted against a prior text containing
`Manzanilla (Matricaria chamomilla)` and `valeriana` is rejected against the
same prior text. -/
theorem c8_plant_validation (selected_plant session_id : String)
    (previous_recs : Option PriorRecs) (h : session_id ≠ "") :
    ((validate_plant_selection selected_plant session_id previous_recs).1 = true ↔
      (previous_recs = none ∨ ∃ pr, previous_recs = some pr ∧
        (strContains (pyLower pr.rag_recommendations) (pyLower selected_plant) = true ∨
         strContains (pyLower pr.rna_recommendations) (pyLower selected_plant) = true))) ∧
    (validate_plant_selection "manzanilla" "s1" (some priorManz)).1 = true ∧
    (validate_plant_selection "valeriana" "s1" (some priorManz)).1 = false := by
  refine ⟨?_, by decide, by decide⟩
  unfold validate_plant_selection
  rw [if_neg h]
  cases previous_recs with
  | none => simp
  | some pr =>
    by_cases h1 : strContains (pyLower pr.rag_recommendations) (pyLower selected_plant) = true
    · simp [h1]
    · by_cases h2 : strContains (pyLower pr.rna_recommendations) (pyLower selected_plant) = true
      · simp [h1, h2]
      · simp [h1, h2]

/-- Witness for C8: validation against the Manzanilla prior payload with a
non-empty session id. -/
theorem c8_plant_validation_witness :
    ("s1" : String) ≠ "" ∧
    (validate_plant_selection "manzanilla" "s1" (some priorManz)).1 = true :=
  ⟨by decide, (c8_plant_validation "manzanilla" "s1" (some priorManz) (by decide)).2.1⟩

/-- C9 counterexample: a plant-selection request whose validation fails — the
endpoint rejects after running validation only; the risk stratifier is never
executed (its event is absent from the trace), although the context
`infoCritico` is one the risk gate would block.  Risk stratification therefore
does not run before plant validation. -/
theorem c9_counterexample :
    detect_consultation_state (some "valeriana") = true ∧
    (evaluar_riesgo_critico infoCritico).1 = true ∧
    (chat_endpoint infoCritico (some "valeriana") "s1" (some priorManz) [] .failure .failure).2 =
      [Event.validate] ∧
    Event.riskEval ∉
      (chat_endpoint infoCritico (some "valeriana") "s1" (some priorManz) [] .failure .failure).2 := by
  refine ⟨by decide, by decide, by decide, ?_⟩
  intro hmem
  have h2 : (chat_endpoint infoCritico (some "valeriana") "s1" (some priorManz) []
      .failure .failure).2 = [Event.validate] := by decide
  rw [h2] at hmem
  simp at hmem

/-- C9 (amended): in the plant-selection phase the endpoint runs plant
validation first; a failed validation yields a rejected request with no
advisor call and no risk evaluation, and on a successful validation risk
stratification runs immediately afterwards, before any advisor call — so a
supplied plant choice still never bypasses the safety gate. -/
theorem c9_order_amended (patient_info : PatientInfo) (selected_plant : Option String)
    (session_id : String) (previous_recs : Option PriorRecs) (recs : List Candidate)
    (crRag crPrep : CompletionResult)
    (hps : detect_consultation_state selected_plant = true) :
    ((validate_plant_selection (selected_plant.getD "") session_id previous_recs).1 = false →
      (chat_endpoint patient_info selected_plant session_id previous_recs recs crRag crPrep).1 =
        .rejected ("Planta inválida: " ++
          (validate_plant_selection (selected_plant.getD "") session_id previous_recs).2) ∧
      (chat_endpoint patient_info selected_plant session_id previous_recs recs crRag crPrep).2 =
        [Event.validate]) ∧
    ((validate_plant_selection (selected_plant.getD "") session_id previous_recs).1 = true →
      ∃ rest,
        (chat_endpoint patient_info selected_plant session_id previous_recs recs crRag crPrep).2 =
          Event.validate :: Event.riskEval :: rest ∧
        ((evaluar_riesgo_critico (if session_id ≠ "" then
            { patient_info with session_id := session_id } else patient_info)).1 = true →
          rest = [])) := by
  constructor
  · intro hv
    constructor <;> simp [chat_endpoint, hps, hv]
  · intro hv
    have hv2 : ¬ ((validate_plant_selection (selected_plant.getD "") session_id previous_recs).1
        = false) := by simp [hv]
    set info2 := if session_id ≠ "" then { patient_info with session_id := session_id }
      else patient_info with hinfo2
    have htr :
        (chat_endpoint patient_info selected_plant session_id previous_recs recs crRag crPrep).2 =
        Event.validate ::
          (process_consultation_with_safety info2 selected_plant recs crRag crPrep).2 := by
      simp [chat_endpoint, hps, hv, hinfo2]
    by_cases hic : (evaluar_riesgo_critico info2).1 = true
    · refine ⟨[], ?_, fun _ => rfl⟩
      rw [htr]
      have : (process_consultation_with_safety info2 selected_plant recs crRag crPrep).2 =
          [Event.riskEval] := by
        simp [process_consultation_with_safety, hic]
      rw [this]
    · by_cases hsp : has_selected_plant selected_plant = true
      · refine ⟨[Event.advisorCall, Event.persist], ?_, fun hc => absurd hc hic⟩
        rw [htr]
        have : (process_consultation_with_safety info2 selected_plant recs crRag crPrep).2 =
            [Event.riskEval, Event.advisorCall, Event.persist] := by
          simp [process_consultation_with_safety, hic, hsp]
        rw [this]
      · refine ⟨[Event.patternScore, Event.precisionCompute, Event.advisorCall,
          Event.precisionCompute, Event.arbitrate], ?_, fun hc => absurd hc hic⟩
        rw [htr]
        have : (process_consultation_with_safety info2 selected_plant recs crRag crPrep).2 =
            [Event.riskEval, Event.patternScore, Event.precisionCompute, Event.advisorCall,
             Event.precisionCompute, Event.arbitrate] := by
          simp [process_consultation_with_safety, hic, hsp]
        rw [this]

/-- Witness for C9 (amended): a successful validation of `manzanilla` in a
blocking context — the trace is validation, then the risk evaluation that
blocks. -/
theorem c9_order_amended_witness :
    detect_consultation_state (some "manzanilla") = true ∧
    (validate_plant_selection "manzanilla" "s1" (some priorManz)).1 = true ∧
    (∃ rest,
      (chat_endpoint infoCritico (some "manzanilla") "s1" (some priorManz) []
        .failure .failure).2 = Event.validate :: Event.riskEval :: rest ∧
      ((evaluar_riesgo_critico (if ("s1" : String) ≠ "" then
          { infoCritico with session_id := "s1" } else infoCritico)).1 = true →
        rest = [])) :=
  ⟨by decide, by decide,
    (c9_order_amended infoCritico (some "manzanilla") "s1" (some priorManz) []
      .failure .failure (by decide)).2 (by decide)⟩

/-- C10: `process_consultation_with_safety` issues its persistence request
(`save_consultation`) exactly on the non-blocked plant-selection path: a
blocked consultation and a non-blocked initial consultation return their
responses without any persistence request. -/
theorem c10_persist_only_plant_path (patient_info : PatientInfo)
    (selected_plant : Option String) (recs : List Candidate) (crRag crPrep : CompletionResult) :
    Event.persist ∈
      (process_consultation_with_safety patient_info selected_plant recs crRag crPrep).2 ↔
    ((evaluar_riesgo_critico patient_info).1 = false ∧
      has_selected_plant selected_plant = true) := by
  by_cases hic : (evaluar_riesgo_critico patient_info).1 = true
  · have : (process_consultation_with_safety patient_info selected_plant recs crRag crPrep).2 =
        [Event.riskEval] := by
      simp [process_consultation_with_safety, hic]
    rw [this]
    simp [hic]
  · have hic2 : (evaluar_riesgo_critico patient_info).1 = false := by
      simpa using hic
    by_cases hsp : has_selected_plant selected_plant = true
    · have : (process_consultation_with_safety patient_info selected_plant recs crRag crPrep).2 =
          [Event.riskEval, Event.advisorCall, Event.persist] := by
        simp [process_consultation_with_safety, hic2, hsp]
      rw [this]
      simp [hic2, hsp]
    · have : (process_consultation_with_safety patient_info selected_plant recs crRag crPrep).2 =
          [Event.riskEval, Event.patternScore, Event.precisionCompute, Event.advisorCall,
           Event.precisionCompute, Event.arbitrate] := by
        simp [process_consultation_with_safety, hic2, hsp]
      rw [this]
      simp [hic2, hsp]
